import Mathlib

/-!
Verification of the interview progression state machine of the
`congenial-disco` repository, shallowly embedded from
`backend/app/routes/interview.py` and `backend/app/services/llm_service.py`.

Python strings are modelled as Lean `String`; JSON values as an inductive
`Value` (null / string / bool / int), JSON objects as insertion-ordered
association lists; the text-generation backend (an external collaborator)
as an oracle record whose three operations stand for the results of
`extract_data_from_conversation`, `judge_completeness` and
`generate_next_question` as observed by the route handler.  The handler is
straight-line code and is embedded as a pure function from
(oracle, schema, session, message) to (response, updated session, call log);
the call log records which backend-driven services were invoked and with
which history argument, so that claims about "the Extractor is never
invoked" or "invoked with exactly these turns" are statable.
-/

namespace Disco

/-- JSON-ish values appearing in extracted data / scores (Python objects). -/
inductive Value where
  | null : Value
  | str : String → Value
  | bool : Bool → Value
  | int : Int → Value
deriving Repr, DecidableEq

/-- Python truthiness of a `Value` (`if value:`): `None`, `""`, `False`
and `0` are falsy, everything else truthy. -/
def Value.truthy : Value → Bool
  | .null => false
  | .str s => !(s == "")
  | .bool b => b
  | .int n => !(n == 0)

/-- Python `str(value)` as used in f-string interpolation. -/
def Value.pyStr : Value → String
  | .null => "None"
  | .str s => s
  | .bool true => "True"
  | .bool false => "False"
  | .int n => toString n

/-- A JSON object: insertion-ordered association list (Python `dict`). -/
abbrev JObj : Type := List (String × Value)

/-- Python `dict.get(key)` (default `None`): first binding of the key. -/
def jget (d : JObj) (k : String) : Option Value :=
  match (d : List (String × Value)).find? (fun p => p.1 == k) with
  | some p => some p.2
  | none => none

/-- Truthiness of `dict.get(k)`: `None` (missing) is falsy. -/
def pyTruthyOpt : Option Value → Bool
  | none => false
  | some v => v.truthy

/-- Python `d or {}` on an optional dict (used as `extracted_data or {}`). -/
def pyOrEmpty : Option JObj → JObj
  | none => ([] : List (String × Value))
  | some d => d

/-- ASCII lower-casing, Python `str.lower` on the ASCII range. -/
def pyLower (s : String) : String := ⟨s.data.map Char.toLower⟩

/-- Characters removed by Python `str.strip()`. -/
def isSpaceChar (c : Char) : Bool :=
  c == ' ' || c == '\t' || c == '\n' || c == '\r' || c == '\x0b' || c == '\x0c'

/-- Drop leading whitespace from a character list. -/
def dropLeading : List Char → List Char
  | [] => []
  | c :: rest => if isSpaceChar c then dropLeading rest else c :: rest

/-- Python `str.strip()`: remove leading and trailing whitespace. -/
def pyStrip (s : String) : String :=
  ⟨((dropLeading ((dropLeading s.data).reverse)).reverse)⟩

/-- `message.lower().strip()` — the normalization applied by the route. -/
def pyNorm (s : String) : String := pyStrip (pyLower s)

/-- Does the character list start with the given pattern? -/
def leadsWith : List Char → List Char → Bool
  | [], _ => true
  | _ :: _, [] => false
  | a :: as, b :: bs => a == b && leadsWith as bs

/-- Does `n` occur as a contiguous sublist of the second argument? -/
def subSearch (n : List Char) : List Char → Bool
  | [] => n.isEmpty
  | c :: rest => leadsWith n (c :: rest) || subSearch n rest

/-- Python `needle in hay` on strings: contiguous substring test. -/
def strIn (needle hay : String) : Bool := subSearch needle.data hay.data

/-- Python `any(phrase in text for phrase in phrases)`. -/
def anyContains (phrases : List String) (text : String) : Bool :=
  phrases.any (fun p => strIn p text)

/-- Python `str.title()` on the ASCII range: upper-case a letter not
preceded by a letter, lower-case a letter preceded by one. -/
def titleChars : Bool → List Char → List Char
  | _, [] => []
  | prev, c :: rest =>
    if c.isAlpha then
      (if prev then c.toLower else c.toUpper) :: titleChars true rest
    else
      c :: titleChars false rest

/-- Python `field_name.replace(Char.ofNat 95, Char.ofNat 32).title()`. -/
def humanize (s : String) : String :=
  ⟨titleChars false (s.data.map (fun c => if c == '_' then ' ' else c))⟩

/-- One conversation turn (`{"sender": ..., "text": ...}`). -/
structure Turn where
  sender : String
  text : String
deriving Repr, DecidableEq

/-- One schema field: `{"prompt": ..., "type": ...}`. -/
structure FieldInfo where
  prompt : String
  type : String
deriving Repr, DecidableEq

/-- A questions schema: insertion-ordered mapping field name → info. -/
abbrev Schema : Type := List (String × FieldInfo)

/-- The mutable state of an `InterviewSession` row that the chat endpoint
reads and writes (`backend/app/models.py`). -/
structure Session where
  template_id : Nat
  session_data : Option JObj
  conversation_history : List Turn
  current_question_index : Nat
  is_completed : Bool
  awaiting_confirmation : Bool
  extracted_data : Option JObj
  field_scores : JObj
deriving Repr, DecidableEq

/-- The `ChatResponse` pydantic model. -/
structure ChatResponse where
  response : String
  is_complete : Bool
  awaiting_confirmation : Bool := false
  extracted_data : Option JObj := none
  field_scores : Option JObj := none
  session_data : Option JObj := none
deriving Repr, DecidableEq

/-- Record of the backend-driven service invocations made during one
`chat_with_session` call: the history argument of each
`extract_data_from_conversation` call, and counts of `judge_completeness`
and `generate_next_question` calls. -/
structure CallLog where
  extractCalls : List (List Turn)
  judgeCalls : Nat
  genCalls : Nat
deriving Repr, DecidableEq

/-- No service invoked. -/
def emptyLog : CallLog := { extractCalls := [], judgeCalls := 0, genCalls := 0 }

/-- The three LLM-backed helpers of `llm_service`, abstracted as an oracle:
each operation stands for the value the corresponding `async` helper
returns to the route (its internal fallback already applied). -/
structure LLMOracle where
  extract : List Turn → Schema → JObj
  judge : JObj → Schema → JObj × Bool × String
  genQ : List Turn → Schema → JObj → JObj → String → String

/-- `confirm_phrases` (interview.py line 78). -/
def confirm_phrases : List String :=
  ["yes", "correct", "looks good", "that\x27s right", "confirm", "approve"]

/-- `reject_phrases` (interview.py line 79). -/
def reject_phrases : List String :=
  ["no", "incorrect", "wrong", "not right", "reject", "change"]

/-- `ready_phrases` (interview.py line 115). -/
def ready_phrases : List String :=
  ["ready", "ok", "yes", "start", "lets start", "let\x27s start",
   "ok. lets start", "begin"]

/-- Fixed reply for an already-completed session (interview.py line 58). -/
def already_completed_msg : String := "This interview has already been completed."

/-- Fixed acknowledgement appended on confirmation (interview.py line 87). -/
def confirmation_ack : String :=
  "Perfect! Thank you for confirming. Your interview is now complete."

/-- Fixed reply on rejection of the summary (interview.py line 102). -/
def continue_msg : String :=
  "I understand. Let\x27s continue our conversation to gather more accurate information. What would you like to clarify or add?"

/-- Opening prompt when the first message signals readiness (line 117). -/
def welcome_ready : String :=
  "Great! I\x27ll be conducting this interview with you. Let\x27s have a natural conversation, and I\x27ll gather the information we need. Tell me, what brings you here today?"

/-- Generic welcome when the first message does not (line 119). -/
def welcome_generic : String :=
  "Hello! Welcome to your interview session. I will ask you questions through a natural conversation. Let me know when you\x27re ready to begin!"

/-- Head of the confirmation summary (interview.py line 145). -/
def confirmation_head : String :=
  "Thank you for sharing all that information! Let me summarize what I\x27ve gathered:\n\n"

/-- Tail of the confirmation summary (interview.py line 149). -/
def confirmation_tail : String :=
  "\nDoes this look accurate? Please confirm if this is correct, or let me know what needs to be changed."

/-- One itemized line of the confirmation summary (interview.py line 148). -/
def summaryLine (field_name : String) (v : Value) : String :=
  "• **" ++ humanize field_name ++ "**: " ++ v.pyStr ++ "\n"

/-- The loop of interview.py lines 146-148: accumulate a line per field,
skipping fields whose value is falsy (`if value:`). -/
def confirmationBody (extracted : JObj) : String :=
  (extracted : List (String × Value)).foldl
    (fun acc p => if p.2.truthy then acc ++ summaryLine p.1 p.2 else acc) ""

/-- The fresh session built by `start_interview` (interview.py lines 27-35);
`is_completed` comes from the column default `False` (models.py line 29). -/
def start_interview (template_id : Nat) : Session :=
  { template_id := template_id
    session_data := some ([] : List (String × Value))
    conversation_history := []
    current_question_index := 0
    is_completed := false
    awaiting_confirmation := false
    extracted_data := some ([] : List (String × Value))
    field_scores := ([] : List (String × Value)) }

/-- The chat endpoint `chat_with_session` (interview.py lines 50-186),
embedded as a pure function.  The oracle supplies the results of the three
LLM-backed helpers; the returned `CallLog` records their invocations. -/
def chat_with_session (llm : LLMOracle) (questions_schema : Schema)
    (session : Session) (message : String) :
    ChatResponse × Session × CallLog :=
  if session.is_completed then
    ({ response := already_completed_msg, is_complete := true,
       session_data := session.session_data }, session, emptyLog)
  else
    let hist := session.conversation_history ++ [{ sender := "user", text := message }]
    let norm := pyNorm message
    if session.awaiting_confirmation && anyContains confirm_phrases norm then
      let sd := pyOrEmpty session.extracted_data
      ({ response := confirmation_ack, is_complete := true, session_data := some sd },
       { session with
          is_completed := true
          session_data := some sd
          conversation_history := hist ++ [{ sender := "assistant", text := confirmation_ack }] },
       emptyLog)
    else if session.awaiting_confirmation && anyContains reject_phrases norm then
      ({ response := continue_msg, is_complete := false },
       { session with
          awaiting_confirmation := false
          conversation_history := hist ++ [{ sender := "assistant", text := continue_msg }] },
       emptyLog)
    else if hist.length == 1 then
      let welcome := if anyContains ready_phrases norm then welcome_ready else welcome_generic
      ({ response := welcome, is_complete := false },
       { session with
          conversation_history := hist ++ [{ sender := "assistant", text := welcome }] },
       emptyLog)
    else
      let extractArg := hist.dropLast
      let extracted := llm.extract extractArg questions_schema
      let j := llm.judge extracted questions_schema
      let scores := j.1
      let overall_complete := j.2.1
      let suggestions := j.2.2
      if overall_complete then
        let msg := confirmation_head ++ confirmationBody extracted ++ confirmation_tail
        ({ response := msg, is_complete := false, awaiting_confirmation := true,
           extracted_data := some extracted, field_scores := some scores },
         { session with
            extracted_data := some extracted
            field_scores := scores
            awaiting_confirmation := true
            conversation_history := hist ++ [{ sender := "assistant", text := msg }] },
         { extractCalls := [extractArg], judgeCalls := 1, genCalls := 0 })
      else
        let q := llm.genQ hist questions_schema extracted scores suggestions
        ({ response := q, is_complete := false,
           extracted_data := some extracted, field_scores := some scores },
         { session with
            extracted_data := some extracted
            field_scores := scores
            conversation_history := hist ++ [{ sender := "assistant", text := q }] },
         { extractCalls := [extractArg], judgeCalls := 1, genCalls := 1 })

/-- Fixed suggestions text of the judge fallback (llm_service.py line 162). -/
def judge_fallback_suggestions : String :=
  "Unable to evaluate completeness. Please continue the conversation."

/-- The deterministic fallback branch of `judge_completeness`
(llm_service.py lines 157-162), taken whenever the text-generation backend
fails: score 5 for each schema field whose extracted value is truthy
(`5 if extracted_data.get(field_name) else 0`), 0 otherwise,
`overall_complete = False`, and a fixed suggestions string. -/
def judge_completeness_fallback (extracted_data : JObj) (questions_schema : Schema) :
    JObj × Bool × String :=
  (questions_schema.map
     (fun p => (p.1, Value.int (if pyTruthyOpt (jget extracted_data p.1) then 5 else 0))),
   false, judge_fallback_suggestions)

/-- Fixed yes/no fallback reason (llm_service.py line 280). -/
def yes_no_reason : String := "Please answer with \x27yes\x27 or \x27no\x27."

/-- Fixed more-detail fallback reason (llm_service.py line 282). -/
def detail_reason : String := "Please provide a more detailed response."

/-- `_fallback_evaluation` (llm_service.py lines 278-284): for the
`yes/no` field type the answer is lower-cased (not stripped) and compared
against the literal answers, and the fixed reason string is returned in
both outcomes; otherwise sufficiency is decided by the stripped length. -/
def fallback_evaluation (answer : String) (field_type : String) : Bool × Option String :=
  if field_type == "yes/no" then
    ((pyLower answer == "yes" || pyLower answer == "no"), some yes_no_reason)
  else if (pyStrip answer).data.length < 10 then
    (false, some detail_reason)
  else
    (true, none)

/-- The Response Evaluator fallback as the spec words it (for comparison
with `fallback_evaluation`): for `yes_no` kind, sufficient iff the
trimmed, lower-cased answer is exactly "yes" or "no", with `null` reason
when sufficient and the fixed reason otherwise; for other kinds,
sufficient iff the trimmed answer has at least 10 characters. -/
def fallback_evaluation_spec (answer : String) (field_type : String) : Bool × Option String :=
  if field_type == "yes/no" then
    if pyNorm answer == "yes" || pyNorm answer == "no" then (true, none)
    else (false, some yes_no_reason)
  else if 10 ≤ (pyStrip answer).data.length then (true, none)
  else (false, some detail_reason)

/-- Python `round` (bankers rounding: round half to even). -/
def pyRound (q : ℚ) : ℤ :=
  let f : ℤ := q.floor
  let frac : ℚ := q - (f : ℚ)
  if frac < 1 / 2 then f
  else if 1 / 2 < frac then f + 1
  else if f % 2 = 0 then f else f + 1

/-- The payload of the status endpoint (interview.py lines 198-204). -/
structure SessionStatus where
  session_id : Nat
  current_question : Nat
  total_questions : Nat
  is_completed : Bool
  progress_percentage : ℤ
deriving Repr, DecidableEq

/-- `get_session_status` (interview.py lines 188-204): `total_questions`
is the schema length (an empty or null schema both give 0), and
`progress_percentage` is `round(current_question_index / total * 100)`
when the total is positive, else 0. -/
def get_session_status (questions_schema : Schema) (session : Session) :
    SessionStatus :=
  let total_questions := questions_schema.length
  { session_id := 0
    current_question := session.current_question_index + 1
    total_questions := total_questions
    is_completed := session.is_completed
    progress_percentage :=
      if 0 < total_questions then
        pyRound (((session.current_question_index : ℚ) / (total_questions : ℚ)) * 100)
      else 0 }

/-- Session states reachable from a freshly started session by any
sequence of chat calls, under arbitrary backend behaviour. -/
inductive Reachable (questions_schema : Schema) : Session → Prop where
  | start (template_id : Nat) :
      Reachable questions_schema (start_interview template_id)
  | step {s : Session} (llm : LLMOracle) (msg : String) :
      Reachable questions_schema s →
      Reachable questions_schema (chat_with_session llm questions_schema s msg).2.1

/-- A one-field schema used for concrete runs. -/
def schema0 : Schema := [("name", { prompt := "What is your name?", type := "string" })]

/-- A deterministic backend: extraction always finds the name and the
judge always declares the interview complete. -/
def oracle0 : LLMOracle :=
  { extract := fun _ _ => [("name", Value.str "John Smith")]
    judge := fun _ _ => ([("name", Value.int 9)], true, "")
    genQ := fun _ _ _ _ _ => "Tell me more." }

/-- State after the bootstrap turn (first message "ready"). -/
def sessA : Session :=
  (chat_with_session oracle0 schema0 (start_interview 1) "ready").2.1

/-- State after the extraction turn: the judge reports completeness, so
the session is awaiting confirmation. -/
def sessB : Session :=
  (chat_with_session oracle0 schema0 sessA "My name is John Smith").2.1

/-- State after the user confirms with "yes". -/
def sessC : Session :=
  (chat_with_session oracle0 schema0 sessB "yes").2.1

/-- A small literal session that is awaiting confirmation. -/
def sAwait : Session :=
  { template_id := 1
    session_data := some ([] : List (String × Value))
    conversation_history :=
      [{ sender := "user", text := "hi" }, { sender := "assistant", text := "q" }]
    current_question_index := 0
    is_completed := false
    awaiting_confirmation := true
    extracted_data := some [("name", Value.str "John Smith")]
    field_scores := [("name", Value.int 9)] }

/-- A small literal completed session. -/
def sDone : Session :=
  { template_id := 1
    session_data := some [("name", Value.str "John Smith")]
    conversation_history :=
      [{ sender := "user", text := "hi" }, { sender := "assistant", text := "bye" }]
    current_question_index := 0
    is_completed := true
    awaiting_confirmation := true
    extracted_data := some [("name", Value.str "John Smith")]
    field_scores := [("name", Value.int 9)] }

/-- Concatenation of a list of strings (used to describe the summary). -/
def concatLines : List String → String
  | [] => ""
  | s :: rest => s ++ concatLines rest

lemma confirmationBody_foldl (l : List (String × Value)) (acc : String) :
    l.foldl (fun acc p => if p.2.truthy then acc ++ summaryLine p.1 p.2 else acc) acc =
      acc ++ concatLines ((l.filter (fun p => p.2.truthy)).map
        (fun p => summaryLine p.1 p.2)) := by
  induction l generalizing acc with
  | nil => simp [concatLines]
  | cons h t ih =>
    by_cases hc : h.2.truthy <;>
      simp [hc, ih, concatLines, String.append_assoc]

/-- C6: a completed session short-circuits: the reply is the fixed
already-concluded message with `is_complete = true` and the existing
`session_data`, the session (hence the conversation) is unchanged, and no
backend service is invoked. -/
theorem completed_session_short_circuit (llm : LLMOracle) (questions_schema : Schema)
    (session : Session) (message : String) (h : session.is_completed = true) :
    chat_with_session llm questions_schema session message =
      ({ response := already_completed_msg, is_complete := true,
         session_data := session.session_data }, session, emptyLog) := by
  simp [chat_with_session, h]

/-- Witness for C6 at the concrete completed session `sDone`. -/
theorem completed_session_short_circuit_witness :
    chat_with_session oracle0 schema0 sDone "hello again" =
      ({ response := already_completed_msg, is_complete := true,
         session_data := sDone.session_data }, sDone, emptyLog) :=
  completed_session_short_circuit oracle0 schema0 sDone "hello again" rfl

/-- C2: while awaiting confirmation, a message containing a confirm
phrase finalizes the session: `is_completed` becomes true, `session_data`
becomes the current `extracted_data` (empty map when null), exactly one
fixed acknowledgement assistant turn is appended after the user turn, and
that text is returned with `is_complete = true`. -/
theorem confirm_branch_finalizes (llm : LLMOracle) (questions_schema : Schema)
    (session : Session) (message : String)
    (h1 : session.is_completed = false)
    (h2 : session.awaiting_confirmation = true)
    (h3 : anyContains confirm_phrases (pyNorm message) = true) :
    chat_with_session llm questions_schema session message =
      ({ response := confirmation_ack, is_complete := true,
         session_data := some (pyOrEmpty session.extracted_data) },
       { session with
          is_completed := true
          session_data := some (pyOrEmpty session.extracted_data)
          conversation_history := session.conversation_history ++
            [{ sender := "user", text := message },
             { sender := "assistant", text := confirmation_ack }] },
       emptyLog) := by
  simp [chat_with_session, h1, h2, h3]

/-- Witness for C2: the session `sAwait` confirmed with "yes". -/
theorem confirm_branch_finalizes_witness :
    chat_with_session oracle0 schema0 sAwait "yes" =
      ({ response := confirmation_ack, is_complete := true,
         session_data := some (pyOrEmpty sAwait.extracted_data) },
       { sAwait with
          is_completed := true
          session_data := some (pyOrEmpty sAwait.extracted_data)
          conversation_history := sAwait.conversation_history ++
            [{ sender := "user", text := "yes" },
             { sender := "assistant", text := confirmation_ack }] },
       emptyLog) :=
  confirm_branch_finalizes oracle0 schema0 sAwait "yes" rfl rfl (by decide)

/-- C7: on a fresh session (empty conversation, flags false) the first
chat call invokes no backend service, appends exactly one assistant turn
(the opening prompt when the normalized message contains a ready phrase,
the generic welcome otherwise), so the conversation ends with length 2,
and returns `is_complete = false`. -/
theorem bootstrap_first_turn (llm : LLMOracle) (questions_schema : Schema)
    (session : Session) (message : String)
    (h1 : session.conversation_history = [])
    (h2 : session.awaiting_confirmation = false)
    (h3 : session.is_completed = false) :
    chat_with_session llm questions_schema session message =
      ({ response := if anyContains ready_phrases (pyNorm message) then welcome_ready
                     else welcome_generic,
         is_complete := false },
       { session with conversation_history :=
           [{ sender := "user", text := message },
            { sender := "assistant",
              text := if anyContains ready_phrases (pyNorm message) then welcome_ready
                      else welcome_generic }] },
       emptyLog) := by
  simp [chat_with_session, h1, h2, h3]

/-- Witness for C7: a freshly started session greeted with "ready". -/
theorem bootstrap_first_turn_witness :
    chat_with_session oracle0 schema0 (start_interview 1) "ready" =
      ({ response := if anyContains ready_phrases (pyNorm "ready") then welcome_ready
                     else welcome_generic,
         is_complete := false },
       { start_interview 1 with conversation_history :=
           [{ sender := "user", text := "ready" },
            { sender := "assistant",
              text := if anyContains ready_phrases (pyNorm "ready") then welcome_ready
                      else welcome_generic }] },
       emptyLog) :=
  bootstrap_first_turn oracle0 schema0 (start_interview 1) "ready" rfl rfl rfl

/-- C5: the deterministic fallback of `judge_completeness` never reports
overall completeness, returns the fixed suggestions string, and scores 5
for every schema field whose extracted value is truthy (the code test
`if extracted_data.get(field_name)`, which formalizes non-empty) and 0
for every field that is null or missing. -/
theorem judge_fallback_never_complete (extracted_data : JObj) (questions_schema : Schema) :
    (judge_completeness_fallback extracted_data questions_schema).2.1 = false ∧
    (judge_completeness_fallback extracted_data questions_schema).2.2 =
      judge_fallback_suggestions ∧
    ∀ f fi, (f, fi) ∈ questions_schema →
      (f, Value.int (if pyTruthyOpt (jget extracted_data f) then 5 else 0)) ∈
        (judge_completeness_fallback extracted_data questions_schema).1 := by
  refine ⟨rfl, rfl, ?_⟩
  intro f fi hmem
  simp only [judge_completeness_fallback, List.mem_map]
  exact ⟨(f, fi), hmem, rfl⟩

/-- Witness for C5 at a concrete extraction and schema. -/
theorem judge_fallback_never_complete_witness :
    (judge_completeness_fallback [("name", Value.str "John Smith")] schema0).2.1 = false ∧
    ("name", Value.int (if pyTruthyOpt (jget [("name", Value.str "John Smith")] "name")
        then 5 else 0)) ∈
      (judge_completeness_fallback [("name", Value.str "John Smith")] schema0).1 :=
  ⟨(judge_fallback_never_complete [("name", Value.str "John Smith")] schema0).1,
   (judge_fallback_never_complete [("name", Value.str "John Smith")] schema0).2.2
     "name" { prompt := "What is your name?", type := "string" } (by decide)⟩

/-- C9: in the confirmation summary, an itemized line is emitted exactly
for the fields whose extracted value is Python-truthy: the body is the
concatenation of the lines of the truthy-filtered entries, and null,
empty-string, boolean-false and zero values are all falsy, hence omitted
even though present in `extracted_data`. -/
theorem confirmation_summary_truthy_only :
    (∀ extracted : JObj,
       confirmationBody extracted =
         concatLines ((extracted.filter (fun p => p.2.truthy)).map
           (fun p => summaryLine p.1 p.2))) ∧
    Value.truthy Value.null = false ∧
    Value.truthy (Value.str "") = false ∧
    Value.truthy (Value.bool false) = false ∧
    Value.truthy (Value.int 0) = false ∧
    Value.truthy (Value.str "John Smith") = true := by
  refine ⟨fun extracted => ?_, rfl, by decide, rfl, by decide, by decide⟩
  simpa using confirmationBody_foldl extracted ""

/-- C8 counterexample: the claim says the yes/no fallback trims the
answer and returns a null reason when sufficient; the code does neither.
On answer " yes" (leading space) the code is insufficient while the
claimed behaviour is sufficient, and on answer "yes" the code returns the
fixed reason alongside sufficiency instead of null. -/
theorem fallback_evaluation_cex :
    fallback_evaluation " yes" "yes/no" = (false, some yes_no_reason) ∧
    fallback_evaluation_spec " yes" "yes/no" = (true, none) ∧
    fallback_evaluation "yes" "yes/no" = (true, some yes_no_reason) ∧
    fallback_evaluation_spec "yes" "yes/no" = (true, none) := by
  decide

/-- C8 amended: for the yes/no kind the fallback is sufficient iff the
lower-cased (untrimmed) answer is exactly "yes" or "no", and the fixed
reason string is returned in both outcomes; for every other kind it is
sufficient iff the stripped answer has at least 10 characters, with null
reason when sufficient and the fixed more-detail reason otherwise; answer
"maybe" with the yes/no kind yields insufficiency with the fixed reason
(which mentions both "yes" and "no"). -/
theorem fallback_evaluation_amended (answer : String) (field_type : String) :
    ((fallback_evaluation answer "yes/no").1 = true ↔
       (pyLower answer = "yes" ∨ pyLower answer = "no")) ∧
    (fallback_evaluation answer "yes/no").2 = some yes_no_reason ∧
    (field_type ≠ "yes/no" →
      ((fallback_evaluation answer field_type).1 = true ↔
         10 ≤ (pyStrip answer).data.length) ∧
      (10 ≤ (pyStrip answer).data.length →
         fallback_evaluation answer field_type = (true, none)) ∧
      ((pyStrip answer).data.length < 10 →
         fallback_evaluation answer field_type = (false, some detail_reason))) ∧
    (fallback_evaluation "maybe" "yes/no" = (false, some yes_no_reason) ∧
     strIn "yes" yes_no_reason = true ∧ strIn "no" yes_no_reason = true) := by
  refine ⟨?_, ?_, ?_, by decide⟩
  · simp [fallback_evaluation]
  · simp [fallback_evaluation]
  · intro h
    have hne : (field_type == "yes/no") = false := by
      simpa using h
    have hfb : fallback_evaluation answer field_type =
        if (pyStrip answer).data.length < 10 then (false, some detail_reason)
        else (true, none) := by
      simp only [fallback_evaluation, hne, Bool.false_eq_true, if_false]
    by_cases hlen : (pyStrip answer).data.length < 10
    · rw [hfb, if_pos hlen]
      refine ⟨⟨fun hx => ?_, fun hge => absurd hge (by omega)⟩,
              fun hge => absurd hge (by omega), fun _ => rfl⟩
      simp at hx
    · rw [hfb, if_neg hlen]
      exact ⟨⟨fun _ => by omega, fun _ => rfl⟩, fun _ => rfl,
             fun hlt => absurd hlt hlen⟩

lemma pyRound_zero : pyRound 0 = 0 := by
  have hf : ((0 : ℚ)).floor = 0 := rfl
  norm_num [pyRound, hf]

/-- Witness for the amended C8 at concrete inputs. -/
theorem fallback_evaluation_amended_witness :
    fallback_evaluation "hi" "story" = (false, some detail_reason) ∧
    fallback_evaluation "maybe" "yes/no" = (false, some yes_no_reason) :=
  ⟨((fallback_evaluation_amended "hi" "story").2.2.1 (by decide)).2.2 (by decide),
   ((fallback_evaluation_amended "hi" "story").2.2.2).1⟩

/-- C10: `progress_percentage` is 0 when the schema is empty and
`round(current_question_index / total * 100)` otherwise; in particular a
freshly started session always reports progress 0. -/
theorem status_progress_formula (questions_schema : Schema) (session : Session) :
    ((questions_schema.length = 0 →
        (get_session_status questions_schema session).progress_percentage = 0) ∧
     (0 < questions_schema.length →
        (get_session_status questions_schema session).progress_percentage =
          pyRound (((session.current_question_index : ℚ) /
            ((questions_schema.length : ℚ))) * 100))) ∧
    ∀ template_id : Nat,
      (get_session_status questions_schema (start_interview template_id)).progress_percentage
        = 0 := by
  refine ⟨⟨fun h => ?_, fun h => ?_⟩, fun tid => ?_⟩
  · simp [get_session_status, h]
  · simp [get_session_status, h, Nat.pos_iff_ne_zero]
  · by_cases h : 0 < questions_schema.length
    · have h2 : (((start_interview tid).current_question_index : ℚ) /
          ((questions_schema.length : ℚ))) * 100 = 0 := by
        simp [start_interview]
      simp [get_session_status, h, h2, pyRound_zero]
    · simp [get_session_status, h]

/-- Witness for C10: an empty schema reports 0, and so does a freshly
started session against the one-field schema. -/
theorem status_progress_formula_witness :
    (get_session_status ([] : Schema) sAwait).progress_percentage = 0 ∧
    (get_session_status schema0 (start_interview 1)).progress_percentage = 0 :=
  ⟨(status_progress_formula ([] : Schema) sAwait).1.1 rfl,
   (status_progress_formula schema0 sAwait).2 1⟩

/-- C3: while awaiting confirmation, a message matching neither the
confirm nor the reject vocabulary does not return in the confirmation
branch: the call reaches the default extraction path (the Extractor and
the Judge are each invoked once) and the resulting session still has
`awaiting_confirmation = true` — the flag is never reset on this path. -/
theorem ambiguous_reply_falls_through (llm : LLMOracle) (questions_schema : Schema)
    (session : Session) (message : String)
    (h1 : session.is_completed = false)
    (h2 : session.awaiting_confirmation = true)
    (h3 : anyContains confirm_phrases (pyNorm message) = false)
    (h4 : anyContains reject_phrases (pyNorm message) = false)
    (h5 : session.conversation_history ≠ []) :
    (chat_with_session llm questions_schema session message).2.2.extractCalls.length = 1 ∧
    (chat_with_session llm questions_schema session message).2.2.judgeCalls = 1 ∧
    (chat_with_session llm questions_schema session message).2.1.awaiting_confirmation
      = true := by
  by_cases hov : (llm.judge
      (llm.extract session.conversation_history questions_schema)
      questions_schema).2.1 = true
  · simp [chat_with_session, h1, h2, h3, h4, h5, hov]
  · simp [chat_with_session, h1, h2, h3, h4, h5, hov]

/-- Witness for C3: `sAwait` receives the ambiguous reply "hmm". -/
theorem ambiguous_reply_falls_through_witness :
    (chat_with_session oracle0 schema0 sAwait "hmm").2.2.extractCalls.length = 1 ∧
    (chat_with_session oracle0 schema0 sAwait "hmm").2.2.judgeCalls = 1 ∧
    (chat_with_session oracle0 schema0 sAwait "hmm").2.1.awaiting_confirmation = true :=
  ambiguous_reply_falls_through oracle0 schema0 sAwait "hmm"
    rfl rfl (by decide) (by decide) (by decide)

/-- C4: in the default extraction branch (session not completed, not in a
resolving confirmation reply), with N ≥ 1 turns of history before the
incoming user message, the Extractor is invoked exactly once, with
exactly the first N turns of the post-append conversation — that is, the
whole history excluding the just-appended user turn. -/
theorem extractor_lag_one_turn (llm : LLMOracle) (questions_schema : Schema)
    (session : Session) (message : String) (N : Nat)
    (h1 : session.is_completed = false)
    (h2 : session.awaiting_confirmation = false ∨
          (anyContains confirm_phrases (pyNorm message) = false ∧
           anyContains reject_phrases (pyNorm message) = false))
    (h3 : session.conversation_history.length = N)
    (h4 : 1 ≤ N) :
    (chat_with_session llm questions_schema session message).2.2.extractCalls =
      [(session.conversation_history ++
          ([{ sender := "user", text := message }] : List Turn)).take N] ∧
    (session.conversation_history ++
        ([{ sender := "user", text := message }] : List Turn)).take N =
      session.conversation_history := by
  have htake : (session.conversation_history ++
      ([{ sender := "user", text := message }] : List Turn)).take N =
      session.conversation_history := by
    subst h3
    exact List.take_left _ _
  have h5 : session.conversation_history ≠ [] := by
    intro hnil
    rw [hnil] at h3
    simp at h3
    omega
  refine ⟨?_, htake⟩
  by_cases hov : (llm.judge
      (llm.extract session.conversation_history questions_schema)
      questions_schema).2.1 = true
  all_goals rcases h2 with h2 | ⟨h2a, h2b⟩
  · simp [chat_with_session, h1, h2, h5, hov, htake]
  · simp [chat_with_session, h1, h2a, h2b, h5, hov, htake]
  · simp [chat_with_session, h1, h2, h5, hov, htake]
  · simp [chat_with_session, h1, h2a, h2b, h5, hov, htake]

/-- Witness for C4: `sAwait` (2 prior turns) with an ambiguous reply. -/
theorem extractor_lag_one_turn_witness :
    (chat_with_session oracle0 schema0 sAwait "hmm again").2.2.extractCalls =
      [(sAwait.conversation_history ++
          ([{ sender := "user", text := "hmm again" }] : List Turn)).take 2] ∧
    (sAwait.conversation_history ++
        ([{ sender := "user", text := "hmm again" }] : List Turn)).take 2 =
      sAwait.conversation_history :=
  extractor_lag_one_turn oracle0 schema0 sAwait "hmm again" 2
    rfl (Or.inr ⟨by decide, by decide⟩) rfl (by decide)

lemma chat_step_completed_awaiting (llm : LLMOracle) (questions_schema : Schema)
    (session : Session) (message : String)
    (ih : session.is_completed = true → session.awaiting_confirmation = true) :
    (chat_with_session llm questions_schema session message).2.1.is_completed = true →
    (chat_with_session llm questions_schema session message).2.1.awaiting_confirmation
      = true := by
  cases hc : session.is_completed with
  | true =>
    simp [chat_with_session, hc]
    exact ih hc
  | false =>
    cases haw : session.awaiting_confirmation with
    | true =>
      cases hcf : anyContains confirm_phrases (pyNorm message) with
      | true => simp [chat_with_session, hc, haw, hcf]
      | false =>
        cases hrj : anyContains reject_phrases (pyNorm message) with
        | true => simp [chat_with_session, hc, haw, hcf, hrj]
        | false =>
          by_cases hboot : session.conversation_history = []
          · simp [chat_with_session, hc, haw, hcf, hrj, hboot]
          · by_cases hov : (llm.judge
                (llm.extract session.conversation_history questions_schema)
                questions_schema).2.1 = true
            · simp [chat_with_session, hc, haw, hcf, hrj, hboot, hov]
            · simp [chat_with_session, hc, haw, hcf, hrj, hboot, hov]
    | false =>
      by_cases hboot : session.conversation_history = []
      · simp [chat_with_session, hc, haw, hboot]
      · by_cases hov : (llm.judge
            (llm.extract session.conversation_history questions_schema)
            questions_schema).2.1 = true
        · simp [chat_with_session, hc, haw, hboot, hov]
        · simp [chat_with_session, hc, haw, hboot, hov]

/-- C1 counterexample: a reachable state with both flags true.  Starting
fresh, sending "ready", then an answer the judge deems complete, then
"yes", the confirm branch sets `is_completed = true` but never resets
`awaiting_confirmation`, so the claimed invariant
`awaiting_confirmation = true implies is_completed = false` fails. -/
theorem completed_retains_awaiting_cex :
    Reachable schema0 sessC ∧
    sessC.awaiting_confirmation = true ∧ sessC.is_completed = true := by
  refine ⟨?_, by decide, by decide⟩
  exact Reachable.step oracle0 "yes"
    (Reachable.step oracle0 "My name is John Smith"
      (Reachable.step oracle0 "ready" (Reachable.start 1)))

/-- C1 amended: the implication holds in the reverse direction.  For
every reachable session state, `is_completed = true` implies
`awaiting_confirmation = true`: the confirm branch is the only way to
complete a session, it requires `awaiting_confirmation = true`, and it
leaves the flag set; hence the claimed invariant fails exactly at
completed sessions, where `awaiting_confirmation` remains true. -/
theorem reachable_completed_implies_awaiting (questions_schema : Schema)
    (s : Session) (h : Reachable questions_schema s) :
    s.is_completed = true → s.awaiting_confirmation = true := by
  induction h with
  | start tid =>
    intro hcontra
    simp [start_interview] at hcontra
  | step llm msg _ ih =>
    exact chat_step_completed_awaiting llm questions_schema _ _ ih

/-- Witness for the amended C1 at the concrete reachable state `sessC`. -/
theorem reachable_completed_implies_awaiting_witness :
    sessC.awaiting_confirmation = true :=
  reachable_completed_implies_awaiting schema0 sessC
    (Reachable.step oracle0 "yes"
      (Reachable.step oracle0 "My name is John Smith"
        (Reachable.step oracle0 "ready" (Reachable.start 1))))
    (by decide)

end Disco
